import Mathlib

/-!
Shallow embedding of `src/hotspot/share/gc/shenandoah/shenandoahAsserts.cpp`.

Addresses (oops, interior locations, closure pointers) are modelled as `Nat`,
with `0` standing for the C++ `NULL`.  The surrounding heap (class
`ShenandoahHeap`, the region table, the connection matrix, the reference
processor) is an external collaborator: it is modelled as a structure of
uninterpreted query functions, mirroring exactly the accessors the source
file calls.  Each `assert_*` entry point of the source is embedded as a
function returning `Option Failure`: `none` when the C++ function returns
normally, `some f` when it calls `print_failure` (which never returns) with
the arguments recorded in `f`.  `print_failure` itself is embedded as a
function producing a structured `Report` describing exactly which sections
the C++ code appends to the message buffer and with which heap queries.
-/

namespace Shen

/-- The safety tiers `_safe_unknown < _safe_oop < _safe_oop_fwd < _safe_all`
of `ShenandoahAsserts::SafeLevel` (Unknown, ObjectSafe, ObjectAndForwardeeSafe,
AllSafe). -/
inductive SafeLevel where
  | unknown
  | oop
  | oopFwd
  | all
deriving DecidableEq, Repr

/-- Numeric rank of a tier, giving the C++ enum's order. -/
def SafeLevel.toNat : SafeLevel → Nat
  | .unknown => 0
  | .oop => 1
  | .oopFwd => 2
  | .all => 3

instance : LE SafeLevel :=
  ⟨fun a b => a.toNat ≤ b.toNat⟩

instance (a b : SafeLevel) : Decidable (a ≤ b) :=
  inferInstanceAs (Decidable (a.toNat ≤ b.toNat))

/-- The heap state observed by the checks: each field is one accessor of the
external collaborators (`ShenandoahHeap`, `ShenandoahHeapRegion`,
`BrooksPointer`, `ShenandoahConnectionMatrix`, `ReferenceProcessor`) that
`shenandoahAsserts.cpp` calls.  Region-valued lookups return the region's
index; `region_containing` is `Option`-valued because `print_obj_safe`
checks the looked-up region against `NULL`. -/
structure Heap where
  is_in : Nat → Bool
  region_index : Nat → Nat
  region_containing : Nat → Option Nat
  region_active : Nat → Bool
  is_humongous_start : Nat → Bool
  is_humongous_continuation : Nat → Bool
  forward : Nat → Nat
  full_gc_move_in_progress : Bool
  in_collection_set : Nat → Bool
  is_marked_complete : Nat → Bool
  is_marked_next : Nat → Bool
  allocated_after_complete_mark_start : Nat → Bool
  allocated_after_next_mark_start : Nat → Bool
  klass : Nat → Nat
  obj_size : Nat → Nat
  brooks_word_size : Nat
  heap_word_size : Nat
  humongous_threshold_words : Nat
  required_regions : Nat → Nat
  matrix_enabled : Bool
  matrix_connected : Nat → Nat → Bool
  rp_is_alive_non_header : Nat
  is_alive_closure : Nat
  is_alive_addr : Nat
  forwarded_is_alive_addr : Nat

/-- The arguments of one `print_failure` call: the safety level, the object,
the interior location, the referring oop `loc`, and the phase/label strings.
A check returning `some f` stands for the C++ function reaching
`print_failure(f.level, f.obj, f.interior_loc, f.loc, f.phase, f.label, ...)`,
which never returns. -/
structure Failure where
  level : SafeLevel
  obj : Nat
  interior_loc : Nat
  loc : Nat
  phase : String
  label : String
deriving DecidableEq, Repr

/-- What one object-detail block of the report contains.  `full` is the
output of `print_obj`: it carries the dereferenced type-descriptor (`klass`)
and the mark/allocation/collection-set state queried from the heap.  `safe`
is the output of `print_obj_safe`: only the address and, when resolvable,
the containing region. -/
inductive ObjRender where
  | full (addr klass : Nat)
      (allocAfterComplete allocAfterNext markedComplete markedNext inCset : Bool)
      (region : Option Nat)
  | safe (addr : Nat) (region : Option Nat)
deriving DecidableEq, Repr

/-- Whether an object-detail block is a full `print_obj` render, i.e. one
that dereferenced the object's type-descriptor and mark state. -/
def ObjRender.isFull : ObjRender → Bool
  | .full _ _ _ _ _ _ _ _ => true
  | .safe _ _ => false

/-- The output of `print_non_obj`: either the in-heap branch (collection-set
bit and region summary) or the outside-heap branch (symbolic description of
the raw address). -/
inductive NonObjRender where
  | inHeap (loc : Nat) (inCset : Bool) (region : Option Nat)
  | outsideHeap (loc : Nat)
deriving DecidableEq, Repr

/-- The "Referenced from" section of the report. -/
inductive RefFrom where
  | interiorObj (iloc : Nat) (objBlock : ObjRender)
  | interiorNonObj (iloc : Nat) (block : NonObjRender)
  | noInterior
deriving DecidableEq, Repr

/-- The "Matrix connections" section: adjacency bits for the four pairs over
the referring location, its forwardee, the object and its forwardee, plus
the two optional interior-location pairs. -/
structure MatrixSection where
  ref_obj : Bool
  fwdref_obj : Bool
  ref_fwdobj : Bool
  fwdref_fwdobj : Bool
  interior_pairs : Option (Bool × Bool)
deriving DecidableEq, Repr

/-- The whole failure report assembled by `print_failure`, one field per
section of the message buffer.  `forwardee = none` means the section is
absent; `forwardee = some none` is the "(the object itself)" line;
`forwardee = some (some r)` renders the forwardee as `r`.  Likewise
`second_forwardee = none` / `matrix = none` mean those sections are absent. -/
structure Report where
  phase : String
  label : String
  ref_from : RefFrom
  object : ObjRender
  forwardee : Option (Option ObjRender)
  second_forwardee : Option ObjRender
  matrix : Option MatrixSection
deriving DecidableEq, Repr

/-- `ShenandoahAsserts::print_obj`: a full object-detail block, dereferencing
the klass and querying the mark, allocation-epoch and collection-set state. -/
def print_obj (h : Heap) (a : Nat) : ObjRender :=
  ObjRender.full a (h.klass a)
    (h.allocated_after_complete_mark_start a) (h.allocated_after_next_mark_start a)
    (h.is_marked_complete a) (h.is_marked_next a) (h.in_collection_set a)
    (h.region_containing a)

/-- `ShenandoahAsserts::print_obj_safe`: address only, plus the region
summary when the address is in the heap and the region lookup is non-null. -/
def print_obj_safe (h : Heap) (a : Nat) : ObjRender :=
  ObjRender.safe a (if h.is_in a then h.region_containing a else none)

/-- `ShenandoahAsserts::print_non_obj`. -/
def print_non_obj (h : Heap) (l : Nat) : NonObjRender :=
  if h.is_in l then NonObjRender.inHeap l (h.in_collection_set l) (h.region_containing l)
  else NonObjRender.outsideHeap l

/-- The "Referenced from" section of `print_failure` (its first block): the
object at the referring location `loc` is rendered with `print_obj` whenever
`loc_in_heap` holds, independent of the level. -/
def ref_from_section (h : Heap) (interior_loc loc : Nat) : RefFrom :=
  if interior_loc ≠ 0 then
    if loc ≠ 0 ∧ h.is_in loc then RefFrom.interiorObj interior_loc (print_obj h loc)
    else RefFrom.interiorNonObj interior_loc (print_non_obj h interior_loc)
  else RefFrom.noInterior

/-- The "Object" section of `print_failure`. -/
def object_section (h : Heap) (level : SafeLevel) (obj : Nat) : ObjRender :=
  if SafeLevel.oop ≤ level then print_obj h obj else print_obj_safe h obj

/-- The "Forwardee" section of `print_failure` (absent below `_safe_oop`). -/
def forwardee_section (h : Heap) (level : SafeLevel) (obj : Nat) :
    Option (Option ObjRender) :=
  if SafeLevel.oop ≤ level then
    some (if obj = h.forward obj then none
          else some (if SafeLevel.oopFwd ≤ level then print_obj h (h.forward obj)
                     else print_obj_safe h (h.forward obj)))
  else none

/-- The "Second forwardee" section of `print_failure` (absent below
`_safe_oop_fwd` or when the forwarding is one-hop stable). -/
def second_forwardee_section (h : Heap) (level : SafeLevel) (obj : Nat) :
    Option ObjRender :=
  if SafeLevel.oopFwd ≤ level then
    (if h.forward obj = h.forward (h.forward obj) then none
     else some (print_obj_safe h (h.forward (h.forward obj))))
  else none

/-- The "Matrix connections" section of `print_failure`, gated on
`loc_in_heap && UseShenandoahMatrix && level == _safe_all`. -/
def matrix_section (h : Heap) (level : SafeLevel) (obj interior_loc loc : Nat) :
    Option MatrixSection :=
  if loc ≠ 0 ∧ h.is_in loc ∧ h.matrix_enabled ∧ level = SafeLevel.all then
    some
      { ref_obj := h.matrix_connected (h.region_index loc) (h.region_index obj)
        fwdref_obj := h.matrix_connected (h.region_index (h.forward loc)) (h.region_index obj)
        ref_fwdobj := h.matrix_connected (h.region_index loc) (h.region_index (h.forward obj))
        fwdref_fwdobj :=
          h.matrix_connected (h.region_index (h.forward loc)) (h.region_index (h.forward obj))
        interior_pairs :=
          if interior_loc ≠ 0 ∧ h.is_in interior_loc then
            some (h.matrix_connected (h.region_index interior_loc) (h.region_index obj),
                  h.matrix_connected (h.region_index interior_loc)
                    (h.region_index (h.forward obj)))
          else none }
  else none

/-- `ShenandoahAsserts::print_failure`: assembles the report section by
section, mirroring the source line for line. -/
def print_failure (h : Heap) (level : SafeLevel) (obj interior_loc loc : Nat)
    (phase lbl : String) : Report :=
  { phase := phase
    label := lbl
    ref_from := ref_from_section h interior_loc loc
    object := object_section h level obj
    forwardee := forwardee_section h level obj
    second_forwardee := second_forwardee_section h level obj
    matrix := matrix_section h level obj interior_loc loc }

/-- Projection of the assembled report onto its "Referenced from" section. -/
theorem print_failure_ref_from (h : Heap) (level : SafeLevel) (obj il loc : Nat)
    (phase lbl : String) :
    (print_failure h level obj il loc phase lbl).ref_from = ref_from_section h il loc :=
  rfl

/-- Projection of the assembled report onto its "Object" section. -/
theorem print_failure_object (h : Heap) (level : SafeLevel) (obj il loc : Nat)
    (phase lbl : String) :
    (print_failure h level obj il loc phase lbl).object = object_section h level obj :=
  rfl

/-- Projection of the assembled report onto its "Forwardee" section. -/
theorem print_failure_forwardee (h : Heap) (level : SafeLevel) (obj il loc : Nat)
    (phase lbl : String) :
    (print_failure h level obj il loc phase lbl).forwardee = forwardee_section h level obj :=
  rfl

/-- Projection of the assembled report onto its "Second forwardee" section. -/
theorem print_failure_second_forwardee (h : Heap) (level : SafeLevel) (obj il loc : Nat)
    (phase lbl : String) :
    (print_failure h level obj il loc phase lbl).second_forwardee
      = second_forwardee_section h level obj :=
  rfl

/-- Projection of the assembled report onto its "Matrix connections" section. -/
theorem print_failure_matrix (h : Heap) (level : SafeLevel) (obj il loc : Nat)
    (phase lbl : String) :
    (print_failure h level obj il loc phase lbl).matrix = matrix_section h level obj il loc :=
  rfl

/-- `ShenandoahAsserts::assert_in_heap`. -/
def assert_in_heap (h : Heap) (interior_loc o : Nat) : Option Failure :=
  if ¬ h.is_in o then
    some ⟨SafeLevel.unknown, o, interior_loc, 0, "Shenandoah assert_in_heap failed",
      "oop must point to a heap address"⟩
  else none

/-- `ShenandoahAsserts::assert_correct`: the five sub-checks in source
order.  Since `print_failure` never returns in C++, the first failing check
determines the result. -/
def assert_correct (h : Heap) (interior_loc o : Nat) : Option Failure :=
  if ¬ h.is_in o then
    some ⟨SafeLevel.unknown, o, interior_loc, 0, "Shenandoah assert_correct failed",
      "oop must point to a heap address"⟩
  else if ¬ h.is_in (h.forward o) then
    some ⟨SafeLevel.oop, o, interior_loc, 0, "Shenandoah assert_correct failed",
      "Forwardee must point to a heap address"⟩
  else if o ≠ h.forward o ∧ h.full_gc_move_in_progress then
    some ⟨SafeLevel.all, o, interior_loc, 0, "Shenandoah assert_correct failed",
      "Non-trivial forwarding pointer during Full GC moves, probable bug."⟩
  else if o ≠ h.forward o ∧ h.region_index (h.forward o) = h.region_index o then
    some ⟨SafeLevel.all, o, interior_loc, 0, "Shenandoah assert_correct failed",
      "Forwardee should be self, or another region"⟩
  else if o ≠ h.forward o ∧ h.forward (h.forward o) ≠ h.forward o then
    some ⟨SafeLevel.all, o, interior_loc, 0, "Shenandoah assert_correct failed",
      "Multiple forwardings"⟩
  else none

/-- First violated condition in an ordered list of (condition, failure)
pairs, `none` when no condition holds. -/
def firstViolation : List (Bool × Failure) → Option Failure
  | [] => none
  | (b, f) :: rest => if b then some f else firstViolation rest

/-- Modelled from the claim's words (for the refinement statement of C1):
the fixed ordered list of `check_correct`'s five sub-checks, the first
violated condition determining the report. -/
def check_correct_claim (h : Heap) (interior_loc o : Nat) : Option Failure :=
  firstViolation
    [ (!h.is_in o,
        ⟨SafeLevel.unknown, o, interior_loc, 0, "Shenandoah assert_correct failed",
          "oop must point to a heap address"⟩),
      (!h.is_in (h.forward o),
        ⟨SafeLevel.oop, o, interior_loc, 0, "Shenandoah assert_correct failed",
          "Forwardee must point to a heap address"⟩),
      ((o != h.forward o) && h.full_gc_move_in_progress,
        ⟨SafeLevel.all, o, interior_loc, 0, "Shenandoah assert_correct failed",
          "Non-trivial forwarding pointer during Full GC moves, probable bug."⟩),
      ((o != h.forward o) && (h.region_index (h.forward o) == h.region_index o),
        ⟨SafeLevel.all, o, interior_loc, 0, "Shenandoah assert_correct failed",
          "Forwardee should be self, or another region"⟩),
      ((o != h.forward o) && (h.forward (h.forward o) != h.forward o),
        ⟨SafeLevel.all, o, interior_loc, 0, "Shenandoah assert_correct failed",
          "Multiple forwardings"⟩) ]

/-- The loop body of `assert_in_correct_region`: walk the humongous span
`[idx, idx + n)` starting at `i`, requiring the start flag at `idx` and the
continuation flag elsewhere; the first missing flag yields the failure the
source raises there. -/
def humongousWalk (h : Heap) (interior_loc o idx : Nat) : Nat → Nat → Option Failure
  | _, 0 => none
  | i, Nat.succ n =>
    if i = idx ∧ ¬ h.is_humongous_start i then
      some ⟨SafeLevel.unknown, o, interior_loc, 0,
        "Shenandoah assert_in_correct_region failed",
        "Object must reside in humongous start"⟩
    else if i ≠ idx ∧ ¬ h.is_humongous_continuation i then
      some ⟨SafeLevel.oop, o, interior_loc, 0,
        "Shenandoah assert_in_correct_region failed",
        "Humongous continuation should be of proper size"⟩
    else humongousWalk h interior_loc o idx (i + 1) n

/-- `ShenandoahAsserts::assert_in_correct_region`: `assert_correct` first,
then the active-region check, then for humongous-sized objects the span
walk over `required_regions(alloc_size * HeapWordSize)` regions. -/
def assert_in_correct_region (h : Heap) (interior_loc o : Nat) : Option Failure :=
  match assert_correct h interior_loc o with
  | some f => some f
  | none =>
    if ¬ h.region_active (h.region_index o) then
      some ⟨SafeLevel.unknown, o, interior_loc, 0,
        "Shenandoah assert_in_correct_region failed",
        "Object must reside in active region"⟩
    else if h.obj_size o + h.brooks_word_size > h.humongous_threshold_words then
      humongousWalk h interior_loc o (h.region_index o) (h.region_index o)
        (h.required_regions ((h.obj_size o + h.brooks_word_size) * h.heap_word_size))
    else none

/-- `ShenandoahAsserts::assert_forwarded`. -/
def assert_forwarded (h : Heap) (interior_loc o : Nat) : Option Failure :=
  match assert_correct h interior_loc o with
  | some f => some f
  | none =>
    if o = h.forward o then
      some ⟨SafeLevel.all, o, interior_loc, 0, "Shenandoah assert_forwarded failed",
        "Object should be forwarded"⟩
    else none

/-- `ShenandoahAsserts::assert_not_forwarded`. -/
def assert_not_forwarded (h : Heap) (interior_loc o : Nat) : Option Failure :=
  match assert_correct h interior_loc o with
  | some f => some f
  | none =>
    if o ≠ h.forward o then
      some ⟨SafeLevel.all, o, interior_loc, 0, "Shenandoah assert_not_forwarded failed",
        "Object should not be forwarded"⟩
    else none

/-- `ShenandoahAsserts::assert_marked_complete`. -/
def assert_marked_complete (h : Heap) (interior_loc o : Nat) : Option Failure :=
  match assert_correct h interior_loc o with
  | some f => some f
  | none =>
    if ¬ h.is_marked_complete o then
      some ⟨SafeLevel.all, o, interior_loc, 0, "Shenandoah assert_marked_complete failed",
        "Object should be marked (complete)"⟩
    else none

/-- `ShenandoahAsserts::assert_marked_next`. -/
def assert_marked_next (h : Heap) (interior_loc o : Nat) : Option Failure :=
  match assert_correct h interior_loc o with
  | some f => some f
  | none =>
    if ¬ h.is_marked_next o then
      some ⟨SafeLevel.all, o, interior_loc, 0, "Shenandoah assert_marked_next failed",
        "Object should be marked (next)"⟩
    else none

/-- `ShenandoahAsserts::assert_not_in_cset` (the object form): `assert_correct`
first, then the collection-set membership test on the object. -/
def assert_not_in_cset (h : Heap) (interior_loc o : Nat) : Option Failure :=
  match assert_correct h interior_loc o with
  | some f => some f
  | none =>
    if h.in_collection_set o then
      some ⟨SafeLevel.all, o, interior_loc, 0, "Shenandoah assert_not_in_cset failed",
        "Object should not be in collection set"⟩
    else none

/-- `ShenandoahAsserts::assert_not_in_cset_loc` (the interior-location-only
form): tests the raw location's collection-set membership directly, with a
`NULL` object and tier `_safe_unknown`. -/
def assert_not_in_cset_loc (h : Heap) (interior_loc : Nat) : Option Failure :=
  if h.in_collection_set interior_loc then
    some ⟨SafeLevel.unknown, 0, interior_loc, 0, "Shenandoah assert_not_in_cset_loc failed",
      "Interior location should not be in collection set"⟩
  else none

/-- The report built by `ShenandoahAsserts::print_rp_failure`: the label,
the actual and expected closure pointers, and the addresses of the heap's
two candidate closures.  It carries no object and no region data. -/
structure RpFailure where
  label : String
  actual : Nat
  expected : Nat
  sh_is_alive : Nat
  sh_forwarded_is_alive : Nat
deriving DecidableEq, Repr

/-- `ShenandoahAsserts::print_rp_failure`. -/
def print_rp_failure (h : Heap) (lbl : String) (actual expected : Nat) : RpFailure :=
  ⟨lbl, actual, expected, h.is_alive_addr, h.forwarded_is_alive_addr⟩

/-- `ShenandoahAsserts::assert_rp_isalive_not_installed`. -/
def assert_rp_isalive_not_installed (h : Heap) : Option RpFailure :=
  if h.rp_is_alive_non_header ≠ 0 then
    some (print_rp_failure h "Shenandoah assert_rp_isalive_not_installed failed"
      h.rp_is_alive_non_header 0)
  else none

/-- `ShenandoahAsserts::assert_rp_isalive_installed`. -/
def assert_rp_isalive_installed (h : Heap) : Option RpFailure :=
  if h.rp_is_alive_non_header ≠ h.is_alive_closure then
    some (print_rp_failure h "Shenandoah assert_rp_isalive_installed failed"
      h.rp_is_alive_non_header h.is_alive_closure)
  else none

/-- Modelled from the claim's words (for C5): every non-start region of the
humongous span `[idx, idx + num)` carries the continuation flag. -/
def contSpanOk (h : Heap) (idx num : Nat) : Bool :=
  (List.range num).all fun k => k == 0 || h.is_humongous_continuation (idx + k)

/-- Replace the forwarding-word reader, leaving every other heap accessor
unchanged (used to state that a check never reads forwarding state). -/
def setForward (h : Heap) (f : Nat → Nat) : Heap :=
  { h with forward := f }

/-- A concrete healthy heap snapshot: addresses below 100 are in the heap,
regions are 10 words wide, nothing is forwarded, nothing is in the
collection set, all regions are active and carry both humongous flags. -/
def hOk : Heap :=
  { is_in := fun a => a < 100
    region_index := fun a => a / 10
    region_containing := fun a => some (a / 10)
    region_active := fun _ => true
    is_humongous_start := fun _ => true
    is_humongous_continuation := fun _ => true
    forward := fun a => a
    full_gc_move_in_progress := false
    in_collection_set := fun _ => false
    is_marked_complete := fun _ => true
    is_marked_next := fun _ => true
    allocated_after_complete_mark_start := fun _ => false
    allocated_after_next_mark_start := fun _ => false
    klass := fun _ => 42
    obj_size := fun _ => 2
    brooks_word_size := 1
    heap_word_size := 8
    humongous_threshold_words := 8
    required_regions := fun bytes => (bytes + 79) / 80
    matrix_enabled := true
    matrix_connected := fun _ _ => true
    rp_is_alive_non_header := 0
    is_alive_closure := 7
    is_alive_addr := 200
    forwarded_is_alive_addr := 208 }

/-- `hOk` with every region inactive (counterexample input for C6). -/
def hInactive : Heap :=
  { hOk with region_active := fun _ => false }

/-- `hOk` with a Full-GC move in progress (witness input for C10). -/
def hFullGC : Heap :=
  { hOk with full_gc_move_in_progress := true }

/-- A concrete replacement forwarding function (witness input for C7). -/
def fwdShift : Nat → Nat :=
  fun a => a + 1

set_option maxRecDepth 4000

/-- Unfolding lemma for `firstViolation` on a cons cell. -/
theorem firstViolation_cons (b : Bool) (f : Failure) (rest : List (Bool × Failure)) :
    firstViolation ((b, f) :: rest) = if b then some f else firstViolation rest :=
  rfl

/-- C1: `check_correct` performs its sub-checks in the fixed order (1) object
in heap (tier Unknown, "oop must point to a heap address"), (2) forwardee in
heap (tier ObjectSafe), (3) non-trivial forwarding during a Full-GC move
(tier AllSafe), (4) forwardee in the object's own region (tier AllSafe,
"Forwardee should be self, or another region"), (5) multiple forwardings
(tier AllSafe); the first violated condition determines the report, and it
reports no violation iff none of the conditions holds. -/
theorem C1_assert_correct_first_violation (h : Heap) (il o : Nat) :
    assert_correct h il o = check_correct_claim h il o ∧
    (assert_correct h il o = none ↔
      (h.is_in o = true ∧ h.is_in (h.forward o) = true ∧
        ¬ (o ≠ h.forward o ∧ h.full_gc_move_in_progress = true) ∧
        ¬ (o ≠ h.forward o ∧ h.region_index (h.forward o) = h.region_index o) ∧
        ¬ (o ≠ h.forward o ∧ h.forward (h.forward o) ≠ h.forward o))) := by
  constructor
  · unfold assert_correct check_correct_claim
    simp only [firstViolation_cons, firstViolation, Bool.and_eq_true, bne_iff_ne,
      beq_iff_eq, Bool.not_eq_true', Bool.not_eq_true, ne_eq]
  · unfold assert_correct
    split_ifs with a b c d e <;> simp_all

/-- C10 (implicit): a self-forwarded in-heap object passes `check_correct`
whatever the Full-GC flag, the region layout, the mark state or the
collection-set state is — the heap `h` is arbitrary apart from the two
hypotheses, so the full-GC, same-region and multiple-forwarding sub-checks
are all skipped. -/
theorem C10_self_forwarded_passes (h : Heap) (il o : Nat)
    (h1 : h.is_in o = true) (h2 : h.forward o = o) :
    assert_correct h il o = none := by
  unfold assert_correct
  simp [h1, h2]

/-- Witness for C10: a self-forwarded object passes `check_correct` even on a
heap whose Full-GC-move flag is set. -/
theorem C10_self_forwarded_passes_witness :
    assert_correct hFullGC 0 5 = none :=
  C10_self_forwarded_passes hFullGC 0 5 (by decide) (by decide)

/-- C9: for an object passing `check_correct`, `check_forwarded` fails with
"Object should be forwarded" (tier AllSafe) exactly when the object is
self-forwarded, and `check_not_forwarded` fails with "Object should not be
forwarded" (tier AllSafe) exactly when it is not. -/
theorem C9_forwarded_checks (h : Heap) (il o : Nat)
    (hc : assert_correct h il o = none) :
    (assert_forwarded h il o =
      if o = h.forward o then
        some ⟨SafeLevel.all, o, il, 0, "Shenandoah assert_forwarded failed",
          "Object should be forwarded"⟩
      else none) ∧
    (assert_not_forwarded h il o =
      if o = h.forward o then none
      else
        some ⟨SafeLevel.all, o, il, 0, "Shenandoah assert_not_forwarded failed",
          "Object should not be forwarded"⟩) := by
  unfold assert_forwarded assert_not_forwarded
  rw [hc]
  by_cases hf : h.forward o = o <;> simp [hf, eq_comm]

/-- Witness for C9 (Scenario C): `check_forwarded` on the self-forwarded
object 5 of `hOk` fails with "Object should be forwarded". -/
theorem C9_forwarded_checks_witness :
    assert_forwarded hOk 0 5 =
      some ⟨SafeLevel.all, 5, 0, 0, "Shenandoah assert_forwarded failed",
        "Object should be forwarded"⟩ := by
  have h := (C9_forwarded_checks hOk 0 5 (by decide)).1
  simpa [hOk] using h

/-- C7: the object form of `check_not_in_collection_set` runs
`check_correct` first and then fails, at tier AllSafe with "Object should
not be in collection set", iff the object is in the collection set; the
interior-location-only form tests the raw location's membership directly
(NULL object, tier Unknown) and its verdict is unchanged when the heap's
forwarding-word reader is replaced by any other function, i.e. it never
reads forwarding state. -/
theorem C7_not_in_cset_checks (h : Heap) (il o : Nat) (h2 : Heap) (il2 : Nat)
    (f : Nat → Nat) (hc : assert_correct h il o = none) :
    (assert_not_in_cset h il o =
      if h.in_collection_set o then
        some ⟨SafeLevel.all, o, il, 0, "Shenandoah assert_not_in_cset failed",
          "Object should not be in collection set"⟩
      else none) ∧
    (assert_not_in_cset_loc h2 il2 =
      if h2.in_collection_set il2 then
        some ⟨SafeLevel.unknown, 0, il2, 0, "Shenandoah assert_not_in_cset_loc failed",
          "Interior location should not be in collection set"⟩
      else none) ∧
    (assert_not_in_cset_loc (setForward h2 f) il2 = assert_not_in_cset_loc h2 il2) := by
  refine ⟨?_, ?_, ?_⟩
  · unfold assert_not_in_cset
    rw [hc]
  · rfl
  · rfl

/-- Witness for C7: on `hOk` (object 5 passes `check_correct` and nothing is
in the collection set), both forms report no violation, and the location
form ignores a replaced forwarding function. -/
theorem C7_not_in_cset_checks_witness :
    assert_not_in_cset hOk 0 5 = none ∧
    assert_not_in_cset_loc hOk 3 = none ∧
    assert_not_in_cset_loc (setForward hOk fwdShift) 3 = assert_not_in_cset_loc hOk 3 := by
  have h := C7_not_in_cset_checks hOk 0 5 hOk 3 fwdShift (by decide)
  exact ⟨by simpa [hOk] using h.1, by simpa [hOk] using h.2.1, h.2.2⟩

/-- C8: `check_reference_processor_not_installed` fails iff the reference
processor's liveness-closure pointer is non-null, and
`check_reference_processor_installed` fails iff that pointer differs from
the collector's canonical closure; neither takes an object handle, and the
failure report is a `RpFailure` holding only the label and closure
identities (actual, expected, and the heap's two candidate closures), with
no object or region fields. -/
theorem C8_rp_checks (h : Heap) :
    (assert_rp_isalive_not_installed h = none ↔ h.rp_is_alive_non_header = 0) ∧
    (assert_rp_isalive_not_installed h ≠ none →
      assert_rp_isalive_not_installed h =
        some ⟨"Shenandoah assert_rp_isalive_not_installed failed",
          h.rp_is_alive_non_header, 0, h.is_alive_addr, h.forwarded_is_alive_addr⟩) ∧
    (assert_rp_isalive_installed h = none ↔
      h.rp_is_alive_non_header = h.is_alive_closure) ∧
    (assert_rp_isalive_installed h ≠ none →
      assert_rp_isalive_installed h =
        some ⟨"Shenandoah assert_rp_isalive_installed failed",
          h.rp_is_alive_non_header, h.is_alive_closure, h.is_alive_addr,
          h.forwarded_is_alive_addr⟩) := by
  unfold assert_rp_isalive_not_installed assert_rp_isalive_installed print_rp_failure
  by_cases h1 : h.rp_is_alive_non_header = 0 <;>
    by_cases h2 : h.rp_is_alive_non_header = h.is_alive_closure <;>
      simp [h1, h2]

/-- Unfolding lemma for the tier order. -/
theorem SafeLevel.le_def (a b : SafeLevel) : (a ≤ b) = (a.toNat ≤ b.toNat) :=
  rfl

/-- C2 counterexample: at tier Unknown — strictly below ObjectSafe — with an
interior location recorded and the referring location 9 inside the heap, the
"Referenced from" section renders the object at 9 with a full `print_obj`
block, i.e. it dereferences that object's type-descriptor and mark state,
refuting the claim that this block is tier-gated. -/
theorem C2_cex :
    (print_failure hOk SafeLevel.unknown 5 7 9 "p" "l").ref_from
      = RefFrom.interiorObj 7 (print_obj hOk 9) ∧
    (print_obj hOk 9).isFull = true ∧
    ¬ SafeLevel.oop ≤ SafeLevel.unknown := by
  decide

/-- C2 amended: when an interior location is known and the referring
location lies inside the heap, the "Referenced from" section renders the
object at that location with a full `print_obj` block — dereferencing its
type-descriptor and mark state — regardless of the tier passed in; the tier
gates only the Object, Forwardee and Second-forwardee sections. -/
theorem C2_ref_from_full_detail (h : Heap) (level : SafeLevel) (obj il loc : Nat)
    (phase lbl : String) (h1 : il ≠ 0) (h2 : loc ≠ 0) (h3 : h.is_in loc = true) :
    (print_failure h level obj il loc phase lbl).ref_from
      = RefFrom.interiorObj il (print_obj h loc) ∧
    (print_obj h loc).isFull = true := by
  rw [print_failure_ref_from]
  unfold ref_from_section
  simp [h1, h2, h3, print_obj, ObjRender.isFull]

/-- Witness for the amended C2: the full-detail render happens already at
the lowest tier on a concrete heap. -/
theorem C2_ref_from_full_detail_witness :
    (print_failure hOk SafeLevel.all 5 7 9 "p" "l").ref_from
      = RefFrom.interiorObj 7 (print_obj hOk 9) ∧
    (print_obj hOk 9).isFull = true :=
  C2_ref_from_full_detail hOk SafeLevel.all 5 7 9 "p" "l" (by decide) (by decide) (by decide)

/-- C3: tier-gating of the Object, Forwardee and Second-forwardee sections.
The Object block is the dereferencing `print_obj` render iff the tier is at
least ObjectSafe, and otherwise is the safe render (address plus, if
resolvable, the containing region).  The Forwardee section appears iff the
tier is at least ObjectSafe, reads "(the object itself)" (`some none`)
exactly for a self-forwarded object, and otherwise renders the forwardee
with full detail iff the tier is at least ObjectAndForwardeeSafe.  The
Second-forwardee section appears iff the tier is at least
ObjectAndForwardeeSafe and the forwardee's own forwarding target differs
from the forwardee, and is always a minimal (non-dereferencing) render. -/
theorem C3_report_tier_gating (h : Heap) (level : SafeLevel) (obj il loc : Nat)
    (phase lbl : String) :
    ((print_failure h level obj il loc phase lbl).object.isFull = true ↔
      SafeLevel.oop ≤ level) ∧
    (¬ SafeLevel.oop ≤ level →
      (print_failure h level obj il loc phase lbl).object = print_obj_safe h obj) ∧
    ((print_failure h level obj il loc phase lbl).forwardee ≠ none ↔
      SafeLevel.oop ≤ level) ∧
    (SafeLevel.oop ≤ level →
      ((print_failure h level obj il loc phase lbl).forwardee = some none ↔
        obj = h.forward obj)) ∧
    (SafeLevel.oop ≤ level → obj ≠ h.forward obj →
      (print_failure h level obj il loc phase lbl).forwardee
        = some (some (if SafeLevel.oopFwd ≤ level then print_obj h (h.forward obj)
                      else print_obj_safe h (h.forward obj)))) ∧
    ((if SafeLevel.oopFwd ≤ level then print_obj h (h.forward obj)
      else print_obj_safe h (h.forward obj)).isFull = true ↔
        SafeLevel.oopFwd ≤ level) ∧
    ((print_failure h level obj il loc phase lbl).second_forwardee ≠ none ↔
      (SafeLevel.oopFwd ≤ level ∧ h.forward obj ≠ h.forward (h.forward obj))) ∧
    ((print_failure h level obj il loc phase lbl).second_forwardee = none ∨
      ((print_failure h level obj il loc phase lbl).second_forwardee
          = some (print_obj_safe h (h.forward (h.forward obj))) ∧
        (print_obj_safe h (h.forward (h.forward obj))).isFull = false)) := by
  simp only [print_failure_object, print_failure_forwardee, print_failure_second_forwardee]
  unfold object_section forwardee_section second_forwardee_section
  generalize h.forward obj = F
  generalize h.forward F = F2
  cases level <;>
    by_cases h1 : obj = F <;>
      by_cases h2 : F = F2 <;>
        simp [h1, h2, print_obj, print_obj_safe, ObjRender.isFull,
          SafeLevel.le_def, SafeLevel.toNat]

/-- C4 counterexample: with the interior location 7 inside the heap, the
connectivity matrix enabled and the tier AllSafe, but the referring-location
argument NULL, the "Matrix connections" section is absent — refuting the
claim that the section is emitted exactly when the interior location lies in
the heap (the gate is the referring location). -/
theorem C4_cex :
    hOk.matrix_enabled = true ∧ hOk.is_in 7 = true ∧
    (print_failure hOk SafeLevel.all 5 7 0 "p" "l").matrix = none := by
  decide

/-- C4 amended: the "Matrix connections" section is emitted exactly when the
referring location `loc` is non-null and lies in the heap, the matrix is
enabled and the tier is AllSafe; when emitted it holds the four adjacency
bits for the region indices of the referring location, its forwardee, the
object and its forwardee, plus the two additional interior-location pairs
exactly when the interior location is non-null and lies in the heap. -/
theorem C4_matrix_section (h : Heap) (level : SafeLevel) (obj il loc : Nat)
    (phase lbl : String) :
    ((print_failure h level obj il loc phase lbl).matrix ≠ none ↔
      (loc ≠ 0 ∧ h.is_in loc = true ∧ h.matrix_enabled = true ∧
        level = SafeLevel.all)) ∧
    (loc ≠ 0 → h.is_in loc = true → h.matrix_enabled = true → level = SafeLevel.all →
      (print_failure h level obj il loc phase lbl).matrix =
        some ⟨h.matrix_connected (h.region_index loc) (h.region_index obj),
          h.matrix_connected (h.region_index (h.forward loc)) (h.region_index obj),
          h.matrix_connected (h.region_index loc) (h.region_index (h.forward obj)),
          h.matrix_connected (h.region_index (h.forward loc))
            (h.region_index (h.forward obj)),
          if il ≠ 0 ∧ h.is_in il = true then
            some (h.matrix_connected (h.region_index il) (h.region_index obj),
              h.matrix_connected (h.region_index il) (h.region_index (h.forward obj)))
          else none⟩) := by
  simp only [print_failure_matrix]
  unfold matrix_section
  by_cases g1 : loc ≠ 0 <;>
    by_cases g2 : h.is_in loc = true <;>
      by_cases g3 : h.matrix_enabled = true <;>
        by_cases g4 : level = SafeLevel.all <;>
          simp [g1, g2, g3, g4]

/-- The humongous span walk succeeds iff every visited region carries the
flag the source requires of it: the start flag at `idx`, the continuation
flag elsewhere. -/
theorem humongousWalk_none_iff (h : Heap) (il o idx : Nat) :
    ∀ (n j : Nat), humongousWalk h il o idx j n = none ↔
      ∀ k, k < n → ((j + k = idx → h.is_humongous_start (j + k) = true) ∧
        (j + k ≠ idx → h.is_humongous_continuation (j + k) = true)) := by
  intro n
  induction n with
  | zero =>
    intro j
    simp [humongousWalk]
  | succ m ih =>
    intro j
    rw [humongousWalk]
    split_ifs with hs hc
    · constructor
      · intro hw
        exact absurd hw (by simp)
      · intro hall
        have hk := (hall 0 (Nat.succ_pos m)).1
        rw [Nat.add_zero] at hk
        exact absurd (hk hs.1) hs.2
    · constructor
      · intro hw
        exact absurd hw (by simp)
      · intro hall
        have hk := (hall 0 (Nat.succ_pos m)).2
        rw [Nat.add_zero] at hk
        exact absurd (hk hc.1) hc.2
    · simp only [not_and, not_not] at hs hc
      rw [ih (j + 1)]
      constructor
      · intro hall k hk
        cases k with
        | zero =>
          rw [Nat.add_zero]
          exact ⟨hs, hc⟩
        | succ k =>
          have e : j + (k + 1) = j + 1 + k := by omega
          rw [e]
          exact hall k (by omega)
      · intro hall k hk
        have e : j + 1 + k = j + (k + 1) := by omega
        rw [e]
        exact hall (k + 1) (by omega)

/-- Any failure of the humongous span walk is either the missing-start
failure or the missing-continuation failure. -/
theorem humongousWalk_some_cases (h : Heap) (il o idx : Nat) :
    ∀ (n j : Nat) (f : Failure), humongousWalk h il o idx j n = some f →
      f = ⟨SafeLevel.unknown, o, il, 0, "Shenandoah assert_in_correct_region failed",
            "Object must reside in humongous start"⟩ ∨
      f = ⟨SafeLevel.oop, o, il, 0, "Shenandoah assert_in_correct_region failed",
            "Humongous continuation should be of proper size"⟩ := by
  intro n
  induction n with
  | zero =>
    intro j f hf
    simp [humongousWalk] at hf
  | succ m ih =>
    intro j f hf
    rw [humongousWalk] at hf
    split_ifs at hf with hs hc
    · exact Or.inl (Option.some.inj hf).symm
    · exact Or.inr (Option.some.inj hf).symm
    · exact ih (j + 1) f hf

/-- When the start flag at `idx` is present, the walk can only fail with the
missing-continuation failure. -/
theorem humongousWalk_start_present (h : Heap) (il o idx : Nat)
    (hst : h.is_humongous_start idx = true) :
    ∀ (n j : Nat) (f : Failure), humongousWalk h il o idx j n = some f →
      f = ⟨SafeLevel.oop, o, il, 0, "Shenandoah assert_in_correct_region failed",
            "Humongous continuation should be of proper size"⟩ := by
  intro n
  induction n with
  | zero =>
    intro j f hf
    simp [humongousWalk] at hf
  | succ m ih =>
    intro j f hf
    rw [humongousWalk] at hf
    split_ifs at hf with hs hc
    · rw [hs.1] at hs
      exact absurd hst hs.2
    · exact (Option.some.inj hf).symm
    · exact ih (j + 1) f hf

/-- When the start flag at `idx` is missing, the walk (begun at `idx`, with
a nonempty span) fails immediately with the missing-start failure. -/
theorem humongousWalk_start_missing (h : Heap) (il o idx n : Nat)
    (hst : ¬ h.is_humongous_start idx = true) (hn : 0 < n) :
    humongousWalk h il o idx idx n =
      some ⟨SafeLevel.unknown, o, il, 0, "Shenandoah assert_in_correct_region failed",
        "Object must reside in humongous start"⟩ := by
  cases n with
  | zero => omega
  | succ m =>
    rw [humongousWalk]
    rw [if_pos ⟨rfl, hst⟩]

/-- The walk begun at `idx`, over a nonempty span of `n` regions, succeeds
iff the start flag is present at `idx` and every further region of the span
carries the continuation flag (`contSpanOk`). -/
theorem humongousWalk_idx_none_iff (h : Heap) (il o idx n : Nat) (hn : 0 < n) :
    humongousWalk h il o idx idx n = none ↔
      (h.is_humongous_start idx = true ∧ contSpanOk h idx n = true) := by
  rw [humongousWalk_none_iff]
  unfold contSpanOk
  rw [List.all_eq_true]
  constructor
  · intro hall
    constructor
    · have hk := (hall 0 hn).1
      rw [Nat.add_zero] at hk
      exact hk rfl
    · intro k hk
      rw [List.mem_range] at hk
      rcases Nat.eq_zero_or_pos k with hk0 | hk0
      · simp [hk0]
      · have := (hall k hk).2 (by omega)
        simp [this, Nat.pos_iff_ne_zero.mp hk0]
  · intro hsp k hk
    constructor
    · intro he
      have e : k = 0 := by omega
      rw [e, Nat.add_zero]
      exact hsp.1
    · intro hne
      have hk0 : k ≠ 0 := fun e => hne (by omega)
      have := hsp.2 k (List.mem_range.mpr hk)
      simpa [hk0] using this

/-- C5: for an object passing `check_correct` (and with a nonempty region
span), `check_in_correct_region` reports no violation iff the containing
region is active and, when the allocation size exceeds the humongous
threshold, the first region of the span carries the humongous-start flag and
every subsequent region of the span carries the humongous-continuation
flag; an inactive region, a missing start flag and a missing continuation
flag each yield their own specific failure, the continuation case failing
with "Humongous continuation should be of proper size" at tier ObjectSafe. -/
theorem C5_assert_in_correct_region (h : Heap) (il o : Nat)
    (hc : assert_correct h il o = none)
    (hnum : 0 < h.required_regions
      ((h.obj_size o + h.brooks_word_size) * h.heap_word_size)) :
    (assert_in_correct_region h il o = none ↔
      (h.region_active (h.region_index o) = true ∧
        (h.obj_size o + h.brooks_word_size > h.humongous_threshold_words →
          (h.is_humongous_start (h.region_index o) = true ∧
            contSpanOk h (h.region_index o)
              (h.required_regions
                ((h.obj_size o + h.brooks_word_size) * h.heap_word_size)) = true)))) ∧
    (¬ h.region_active (h.region_index o) = true →
      assert_in_correct_region h il o =
        some ⟨SafeLevel.unknown, o, il, 0, "Shenandoah assert_in_correct_region failed",
          "Object must reside in active region"⟩) ∧
    (h.region_active (h.region_index o) = true →
      h.obj_size o + h.brooks_word_size > h.humongous_threshold_words →
      ¬ h.is_humongous_start (h.region_index o) = true →
      assert_in_correct_region h il o =
        some ⟨SafeLevel.unknown, o, il, 0, "Shenandoah assert_in_correct_region failed",
          "Object must reside in humongous start"⟩) ∧
    (h.region_active (h.region_index o) = true →
      h.obj_size o + h.brooks_word_size > h.humongous_threshold_words →
      h.is_humongous_start (h.region_index o) = true →
      ∀ f : Failure, assert_in_correct_region h il o = some f →
        f = ⟨SafeLevel.oop, o, il, 0, "Shenandoah assert_in_correct_region failed",
          "Humongous continuation should be of proper size"⟩) := by
  have hred : assert_in_correct_region h il o =
      (if ¬ h.region_active (h.region_index o) then
        some ⟨SafeLevel.unknown, o, il, 0, "Shenandoah assert_in_correct_region failed",
          "Object must reside in active region"⟩
      else if h.obj_size o + h.brooks_word_size > h.humongous_threshold_words then
        humongousWalk h il o (h.region_index o) (h.region_index o)
          (h.required_regions ((h.obj_size o + h.brooks_word_size) * h.heap_word_size))
      else none) := by
    unfold assert_in_correct_region
    rw [hc]
  rw [hred]
  refine ⟨?_, ?_, ?_, ?_⟩
  · by_cases ha : h.region_active (h.region_index o) = true
    · by_cases hh : h.obj_size o + h.brooks_word_size > h.humongous_threshold_words
      · rw [if_neg (by simpa using ha), if_pos hh,
          humongousWalk_idx_none_iff h il o _ _ hnum]
        simp [ha, hh]
      · rw [if_neg (by simpa using ha), if_neg hh]
        simp [ha, hh]
    · rw [if_pos (by simpa using ha)]
      simp [ha]
  · intro ha
    rw [if_pos (by simpa using ha)]
  · intro ha hh hst
    rw [if_neg (by simpa using ha), if_pos hh]
    exact humongousWalk_start_missing h il o _ _ hst hnum
  · intro ha hh hst f hf
    rw [if_neg (by simpa using ha), if_pos hh] at hf
    exact humongousWalk_start_present h il o _ hst _ _ f hf

/-- Witness for C5 at a concrete healthy heap (object 5 of `hOk` is not
humongous and its region is active, so `check_in_correct_region` passes). -/
theorem C5_assert_in_correct_region_witness :
    assert_in_correct_region hOk 0 5 = none := by
  have h := (C5_assert_in_correct_region hOk 0 5 (by decide) (by decide)).1
  rw [h]
  constructor
  · decide
  · intro hh
    exact absurd hh (by decide)

/-- C6 counterexample: on `hInactive`, object 5 passes `check_correct`
(hence tiers up to ObjectSafe were validated), yet the inactive-region
violation of `check_in_correct_region` is handed to the reporter at
`_safe_unknown`, which is strictly below ObjectSafe — refuting the claim
that the tier is always at least ObjectSafe there. -/
theorem C6_cex :
    assert_correct hInactive 0 5 = none ∧
    assert_in_correct_region hInactive 0 5 =
      some ⟨SafeLevel.unknown, 5, 0, 0, "Shenandoah assert_in_correct_region failed",
        "Object must reside in active region"⟩ ∧
    ¬ SafeLevel.oop ≤ SafeLevel.unknown := by
  decide

/-- C6 amended: when `check_in_correct_region` detects a violation after
`check_correct` has succeeded, the tier handed to the reporter is
`_safe_unknown` for the inactive-region and missing-humongous-start
failures, and `_safe_oop` (ObjectSafe) only for the missing-continuation
failure. -/
theorem C6_region_failure_tiers (h : Heap) (il o : Nat) (f : Failure)
    (hc : assert_correct h il o = none)
    (hf : assert_in_correct_region h il o = some f) :
    (f.level = SafeLevel.unknown ∧
      (f.label = "Object must reside in active region" ∨
        f.label = "Object must reside in humongous start")) ∨
    (f.level = SafeLevel.oop ∧
      f.label = "Humongous continuation should be of proper size") := by
  have hred : assert_in_correct_region h il o =
      (if ¬ h.region_active (h.region_index o) then
        some ⟨SafeLevel.unknown, o, il, 0, "Shenandoah assert_in_correct_region failed",
          "Object must reside in active region"⟩
      else if h.obj_size o + h.brooks_word_size > h.humongous_threshold_words then
        humongousWalk h il o (h.region_index o) (h.region_index o)
          (h.required_regions ((h.obj_size o + h.brooks_word_size) * h.heap_word_size))
      else none) := by
    unfold assert_in_correct_region
    rw [hc]
  rw [hred] at hf
  by_cases ha : h.region_active (h.region_index o) = true
  · rw [if_neg (by simpa using ha)] at hf
    by_cases hh : h.obj_size o + h.brooks_word_size > h.humongous_threshold_words
    · rw [if_pos hh] at hf
      rcases humongousWalk_some_cases h il o _ _ _ f hf with he | he
      · left
        rw [he]
        exact ⟨rfl, Or.inr rfl⟩
      · right
        rw [he]
        exact ⟨rfl, rfl⟩
    · rw [if_neg hh] at hf
      exact absurd hf (by simp)
  · rw [if_pos (by simpa using ha)] at hf
    left
    rw [← Option.some.inj hf]
    exact ⟨rfl, Or.inl rfl⟩

/-- Witness for the amended C6: the inactive-region failure on `hInactive`
indeed lands in the `_safe_unknown` branch of the disjunction. -/
theorem C6_region_failure_tiers_witness :
    (Failure.level ⟨SafeLevel.unknown, 5, 0, 0,
        "Shenandoah assert_in_correct_region failed",
        "Object must reside in active region"⟩ = SafeLevel.unknown ∧
      (Failure.label ⟨SafeLevel.unknown, 5, 0, 0,
          "Shenandoah assert_in_correct_region failed",
          "Object must reside in active region"⟩ = "Object must reside in active region" ∨
        Failure.label ⟨SafeLevel.unknown, 5, 0, 0,
          "Shenandoah assert_in_correct_region failed",
          "Object must reside in active region"⟩ = "Object must reside in humongous start")) ∨
    (Failure.level ⟨SafeLevel.unknown, 5, 0, 0,
        "Shenandoah assert_in_correct_region failed",
        "Object must reside in active region"⟩ = SafeLevel.oop ∧
      Failure.label ⟨SafeLevel.unknown, 5, 0, 0,
          "Shenandoah assert_in_correct_region failed",
          "Object must reside in active region"⟩ =
        "Humongous continuation should be of proper size") :=
  C6_region_failure_tiers hInactive 0 5 _ (by decide) (by decide)

end Shen
